import Mathlib

/-!
Verification development for the HomeGuard real-time alert distribution
subsystem.  The client-side code (frontend/src/services/websocket.ts,
frontend/src/services/pushSubscription.ts, frontend/public/sw.js) is embedded
directly.  The server-side components (Alert Source Watcher, Connection
Registry, Push Fanout Service, Distribution Coordinator) live in backend files
that are not part of this source tree; they are modelled from the
specification text, as marked on each such definition.
-/

/-! ## Data model -/

/-- An alert record as carried by the feed and the distribution pipeline
(spec section 3: stable string identifier, source device, severity, reason,
numeric timestamp). -/
structure Alert where
  alertId : String
  deviceIp : String
  severity : String
  reason : String
  timestamp : Nat
deriving DecidableEq, Repr

/-! ## Alert Source Watcher (C1) -/

/-- Modelled from the spec: the Alert Source Watcher lives in backend code not
present in this tree.  One tick walks the whole feed in order and emits each
alert whose identifier is not in the in-memory seen set, adding the identifier
to the seen set as it goes (spec section 4.2). -/
def tickEmit : List Alert → List String → List Alert
  | [], _ => []
  | a :: rest, seen =>
    if a.alertId ∈ seen then tickEmit rest seen
    else a :: tickEmit rest (a.alertId :: seen)

/-- Modelled from the spec: the seen set resulting from one Watcher tick over
the given feed, starting from the given seen set (spec section 4.2). -/
def tickSeen : List Alert → List String → List String
  | [], seen => seen
  | a :: rest, seen =>
    if a.alertId ∈ seen then tickSeen rest seen
    else tickSeen rest (a.alertId :: seen)

/-- Modelled from the spec: runs the Watcher over a sequence of feed contents
(one list of alerts per tick) within one process lifetime, threading the seen
set from tick to tick, and returns the concatenated stream of AlertDiscovered
emissions (spec section 4.2). -/
def watcherRun : List (List Alert) → List String → List Alert
  | [], _ => []
  | feed :: rest, seen => tickEmit feed seen ++ watcherRun rest (tickSeen feed seen)

/-- All alert identifiers appearing across a sequence of feed contents. -/
def allIds : List (List Alert) → List String
  | [] => []
  | feed :: rest => feed.map (fun a => a.alertId) ++ allIds rest

/-! ## Connection Registry (C2) -/

/-- A live, authenticated connection registered under a channel.  The
`sendOk` field models the behaviour of the opaque send handle: `true` means a
send on this transport succeeds, `false` means it fails (transport closed,
buffer full). -/
structure Conn where
  connId : Nat
  sendOk : Bool
deriving DecidableEq, Repr

/-- The Connection Registry's membership map: channel name to the list of
registered connections. -/
abbrev Registry := List (String × List Conn)

/-- Connections currently registered under a channel. -/
def lookupChannel : Registry → String → List Conn
  | [], _ => []
  | (c, conns) :: rest, ch => if c = ch then conns else lookupChannel rest ch

/-- Replaces a channel's membership list in the registry. -/
def setChannel : Registry → String → List Conn → Registry
  | [], _, _ => []
  | (c, conns) :: rest, ch, newConns =>
    if c = ch then (c, newConns) :: rest else (c, conns) :: setChannel rest ch newConns

/-- Modelled from the spec: the broadcast loop of the Connection Registry
(backend/core/websocket_manager.py is not in this tree; the spec, section 4.1,
is the authority and the snippet in WEBSOCKET_EXPLANATION.md is a simplified
illustration).  For each connection of the snapshot, in order, one send is
attempted; a successful send is counted, a failed send drops that single
connection from the membership and the loop continues with the remaining
targets.  Returns (number of successful deliveries, surviving connections).
The function is total: no per-target failure escapes to the caller. -/
def broadcastLoop : List Conn → Nat × List Conn
  | [] => (0, [])
  | c :: rest =>
    let (n, keep) := broadcastLoop rest
    if c.sendOk then (n + 1, c :: keep) else (n, keep)

/-- Modelled from the spec: `broadcast(channel, message)` takes a snapshot of
the channel's membership, runs the broadcast loop over it, writes the
surviving connections back, and returns the count of successful deliveries
(spec section 4.1). -/
def broadcast (reg : Registry) (ch : String) : Nat × Registry :=
  let snapshot := lookupChannel reg ch
  let (n, keep) := broadcastLoop snapshot
  (n, setChannel reg ch keep)

/-! ## Push Subscription Store and Push Fanout Service (C3) -/

/-- Outcome the push transport collaborator reports for one delivery attempt
(spec sections 3 and 6): delivered, permanent failure carrying the explicit
"subscription gone" signal, or any other (retriable) failure. -/
inductive PushOutcome
  | delivered
  | gone
  | retriable
deriving DecidableEq, Repr

/-- A push subscription as stored by the Push Subscription Store, together
with the outcome the push transport yields for a delivery attempt to its
endpoint (the transport collaborator's behaviour, fixed per endpoint for the
scope of one `deliver` call). -/
structure Subscription where
  endpoint : String
  userId : String
  outcome : PushOutcome
deriving DecidableEq, Repr

/-- The Push Subscription Store's table, keyed by endpoint. -/
abbrev PushStore := List Subscription

/-- Modelled from the spec: `store.remove(endpoint)` retires the record with
the given endpoint (spec section 4.3). -/
def removeEndpoint (store : PushStore) (ep : String) : PushStore :=
  store.filter (fun s => !(s.endpoint == ep))

/-- Summary returned by `deliver`: counts of delivered attempts, removed
(permanently failed) subscriptions, and retriable failures. -/
structure DeliverySummary where
  delivered : Nat
  removed : Nat
  failed : Nat
deriving DecidableEq, Repr

/-- Modelled from the spec: the Push Fanout Service's `deliver(alert,
subscriptions)` (backend/core/push_notifications.py is not in this tree; spec
section 4.4).  Each subscription gets one independent delivery attempt; a
"gone" outcome triggers `store.remove(endpoint)` for exactly that
subscription; any other failure is logged only.  The function is total — no
per-subscription failure raises — and returns the
{delivered, removed, failed} summary together with the updated store. -/
def deliver : List Subscription → PushStore → DeliverySummary × PushStore
  | [], store => (⟨0, 0, 0⟩, store)
  | s :: rest, store =>
    match s.outcome with
    | .delivered =>
      let (sum, st) := deliver rest store
      (⟨sum.delivered + 1, sum.removed, sum.failed⟩, st)
    | .gone =>
      let (sum, st) := deliver rest (removeEndpoint store s.endpoint)
      (⟨sum.delivered, sum.removed + 1, sum.failed⟩, st)
    | .retriable =>
      let (sum, st) := deliver rest store
      (⟨sum.delivered, sum.removed, sum.failed + 1⟩, st)

/-- Endpoints of the subscriptions whose delivery attempt reports "gone". -/
def goneEndpoints (subs : List Subscription) : List String :=
  (subs.filter (fun s => s.outcome == .gone)).map (fun s => s.endpoint)

/-! ## Distribution Coordinator (C4) -/

/-- One side effect the Distribution Coordinator attempts while handling an
`AlertDiscovered` event: the live broadcast on a channel (recording the
success count it returned) or the push fan-out (recording the audience size
and the delivery summary). -/
inductive CoordAction
  | broadcastAttempt (channel : String) (alertId : String) (successCount : Nat)
  | pushAttempt (alertId : String) (audienceSize : Nat) (summary : DeliverySummary)
deriving DecidableEq, Repr

/-- Modelled from the spec: `listForUser` of the Push Subscription Store; in
this system's blocking model every admin identity shares the alert feed, so
the audience is effectively all registered subscriptions (spec section 4.3). -/
def listForUser (store : PushStore) (_userId : String) : List Subscription :=
  store

/-- Whether a coordinator action is the live-broadcast attempt. -/
def CoordAction.isBroadcast : CoordAction → Bool
  | .broadcastAttempt _ _ _ => true
  | _ => false

/-- Whether a coordinator action is the push fan-out attempt. -/
def CoordAction.isPush : CoordAction → Bool
  | .pushAttempt _ _ _ => true
  | _ => false

/-- Modelled from the spec: the Distribution Coordinator's handler for one
`AlertDiscovered` event (spec section 4.5).  It attempts (a) the live
broadcast of the alert on the "alerts" channel and (b) the push fan-out to
the listed audience, each exactly once; both are attempted unconditionally,
so neither an empty registry nor a failing fan-out suppresses the other.
Returns the updated registry and store together with the list of attempted
actions. -/
def handleAlertDiscovered (a : Alert) (reg : Registry) (store : PushStore) :
    (Registry × PushStore) × List CoordAction :=
  let b := broadcast reg "alerts"
  let subs := listForUser store "admin"
  let d := deliver subs store
  ((b.2, d.2),
    [.broadcastAttempt "alerts" a.alertId b.1, .pushAttempt a.alertId subs.length d.1])

/-! ## Client channel socket message handling (C8)

Embeds the `onmessage` handlers of `WebSocketService.connectAlerts` and
`WebSocketService.connectDevices` (frontend/src/services/websocket.ts,
lines 37-50 and 90-99). -/

/-- The data object a parsed alert message may carry.  `alert_id` is the only
field the handler inspects; `none` models an absent (undefined) field, and an
empty string models a present but falsy field, matching the JavaScript
truthiness test `message.data && message.data.alert_id`. -/
structure AlertData where
  alert_id : Option String
deriving DecidableEq, Repr

/-- A parsed WebSocket message: optional `type` tag and optional `data`
object, matching the fields the client handlers inspect. -/
structure WsMessage where
  msgType : Option String
  data : Option AlertData
deriving DecidableEq, Repr

/-- A payload arriving on a channel socket: either `JSON.parse` throws
(malformed) or it yields a message object. -/
inductive Payload
  | malformed
  | parsed (m : WsMessage)
deriving DecidableEq, Repr

/-- JavaScript truthiness of an optional string field: absent (undefined) and
the empty string are falsy. -/
def truthyStr : Option String → Bool
  | none => false
  | some s => !s.isEmpty

/-- The alerts-channel `onmessage` handler (websocket.ts lines 37-50): number
of times `onAlert` is invoked for one payload.  A parse failure is caught and
logged (0 calls); a message with `type === 'new_alert'` is forwarded as is;
otherwise a message whose `data.alert_id` is truthy is wrapped and forwarded;
anything else is dropped. -/
def alertsOnMessage : Payload → Nat
  | .malformed => 0
  | .parsed m =>
    if m.msgType == some "new_alert" then 1
    else
      match m.data with
      | some d => if truthyStr d.alert_id then 1 else 0
      | none => 0

/-- The devices-channel `onmessage` handler (websocket.ts lines 90-99):
`onDeviceUpdate` is invoked exactly for messages with
`type === 'device_update'`. -/
def devicesOnMessage : Payload → Nat
  | .malformed => 0
  | .parsed m => if m.msgType == some "device_update" then 1 else 0

/-! ## Client channel socket state machine (C5, C6, C7)

Embeds the per-channel connection logic of `WebSocketService`
(frontend/src/services/websocket.ts).  The alerts channel is modelled; the
devices channel code is line-for-line identical up to the endpoint path and
the message tag.  The state records the service's two fields (`alertSocket`,
`alertReconnectInterval`), every transport ever created with its readyState,
the set of interval timers created and not yet cleared, and the number of
handler invocations. -/

/-- readyState of a browser WebSocket as the client code distinguishes it:
CONNECTING, OPEN, or CLOSING/CLOSED (collapsed — the code only ever compares
against OPEN). -/
inductive ReadyState
  | connecting
  | opened
  | closed
deriving DecidableEq, Repr

/-- One WebSocket transport object created by `new WebSocket(url)`.
`closePending` records that the transport has been torn down but its `close`
event has not yet been delivered to the attached `onclose` handler. -/
structure Transport where
  tid : Nat
  state : ReadyState
  closePending : Bool
deriving DecidableEq, Repr

/-- State of the client service for one channel. -/
structure ClientState where
  alertSocket : Option Nat
  reconnectTimer : Option Nat
  timers : List Nat
  transports : List Transport
  nextTransport : Nat
  nextTimer : Nat
  handlerCalls : Nat
deriving DecidableEq, Repr

/-- The initial client state: no socket, no timer, nothing created. -/
def initClient : ClientState :=
  ⟨none, none, [], [], 0, 0, 0⟩

/-- Looks up a transport object by id. -/
def findTransport (s : ClientState) (t : Nat) : Option Transport :=
  s.transports.find? (fun tr => tr.tid == t)

/-- The guard `this.alertSocket?.readyState === WebSocket.OPEN`. -/
def isFieldOpen (s : ClientState) : Bool :=
  match s.alertSocket with
  | none => false
  | some t =>
    match findTransport s t with
    | some tr => tr.state == .opened
    | none => false

/-- `socket.close()`: a transport that is not already closed becomes closed
and will later deliver a `close` event to its `onclose` handler; closing an
already-closed transport is a no-op. -/
def closeTransport (s : ClientState) (t : Nat) : ClientState :=
  { s with
    transports := s.transports.map (fun tr =>
      if tr.tid == t && !(tr.state == .closed) then
        { tr with state := .closed, closePending := true }
      else tr) }

/-- `clearInterval(this.alertReconnectInterval); this.alertReconnectInterval
= null` when the field is set, else nothing. -/
def clearReconnect (s : ClientState) : ClientState :=
  match s.reconnectTimer with
  | none => s
  | some t => { s with reconnectTimer := none, timers := s.timers.erase t }

/-- `connectAlerts` (websocket.ts lines 16-27): returns unchanged if the
referenced socket's readyState is OPEN; otherwise closes any existing socket
and stores a fresh transport (in CONNECTING state, handlers attached) in the
`alertSocket` field. -/
def connectStep (s : ClientState) : ClientState :=
  if isFieldOpen s then s
  else
    let s1 :=
      match s.alertSocket with
      | some t => closeTransport s t
      | none => s
    { s1 with
      transports := s1.transports ++ [⟨s1.nextTransport, .connecting, false⟩],
      alertSocket := some s1.nextTransport,
      nextTransport := s1.nextTransport + 1 }

/-- The `onopen` handler of a successfully opened transport (websocket.ts
lines 29-35): the transport becomes OPEN and any pending reconnect interval
is cleared. -/
def fireOpenStep (s : ClientState) (t : Nat) : ClientState :=
  clearReconnect
    { s with
      transports := s.transports.map (fun tr =>
        if tr.tid == t then { tr with state := .opened } else tr) }

/-- Delivery of a transport's `close` event to its `onclose` handler
(websocket.ts lines 56-66): the transport is closed (if it was not already)
and, if no reconnect interval is pending, a fresh interval timer is created
and stored in the field. -/
def fireCloseStep (s : ClientState) (t : Nat) : ClientState :=
  let s1 : ClientState :=
    { s with
      transports := s.transports.map (fun tr : Transport =>
        if tr.tid == t then { tr with state := .closed, closePending := false }
        else tr) }
  match s1.reconnectTimer with
  | some _ => s1
  | none =>
    { s1 with
      reconnectTimer := some s1.nextTimer,
      timers := s1.timers ++ [s1.nextTimer],
      nextTimer := s1.nextTimer + 1 }

/-- The `onmessage` handler of an open transport for one payload: the handler
callback is invoked as `alertsOnMessage` prescribes; the socket field, the
transports and the timers are untouched and the connection is not closed. -/
def fireMessageStep (s : ClientState) (p : Payload) : ClientState :=
  { s with handlerCalls := s.handlerCalls + alertsOnMessage p }

/-- One firing of the reconnect interval callback (websocket.ts lines 60-64):
`connectAlerts` is retried only while the referenced socket is not OPEN. -/
def timerFireStep (s : ClientState) : ClientState :=
  if isFieldOpen s then s else connectStep s

/-- `disconnectAlerts` (websocket.ts lines 118-127): clears any pending
reconnect interval, closes the live transport if present and nulls the
field. -/
def disconnectStep (s : ClientState) : ClientState :=
  let s1 := clearReconnect s
  match s1.alertSocket with
  | none => s1
  | some t => { closeTransport s1 t with alertSocket := none }

/-- The events that can hit the client service: a caller invoking `connect`
or `disconnect`, the transport firing open/close/message events, and a
pending interval timer firing.  Event-handler steps carry the precondition
that makes the event possible (a transport can only open while CONNECTING,
a close event fires on remote close of a live transport or as the pending
event of a locally closed one, messages arrive only on OPEN transports,
and only an outstanding timer fires). -/
inductive ClientStep : ClientState → ClientState → Prop
  | connect (s : ClientState) : ClientStep s (connectStep s)
  | disconnect (s : ClientState) : ClientStep s (disconnectStep s)
  | fireOpen (s : ClientState) (t : Nat) (tr : Transport)
      (h : findTransport s t = some tr) (hc : tr.state = .connecting) :
      ClientStep s (fireOpenStep s t)
  | fireClose (s : ClientState) (t : Nat) (tr : Transport)
      (h : findTransport s t = some tr)
      (hc : tr.state ≠ .closed ∨ tr.closePending = true) :
      ClientStep s (fireCloseStep s t)
  | fireMessage (s : ClientState) (t : Nat) (tr : Transport) (p : Payload)
      (h : findTransport s t = some tr) (hc : tr.state = .opened) :
      ClientStep s (fireMessageStep s p)
  | timerFire (s : ClientState) (t : Nat) (h : t ∈ s.timers) :
      ClientStep s (timerFireStep s)

/-- States reachable from the initial client state. -/
def ClientReachable (s : ClientState) : Prop :=
  Relation.ReflTransGen ClientStep initClient s

/-- Number of live (not closed) transports the client currently holds. -/
def liveTransports (s : ClientState) : Nat :=
  s.transports.countP (fun tr => !(tr.state == .closed))

/-- Number of OPEN transports. -/
def openTransports (s : ClientState) : Nat :=
  s.transports.countP (fun tr => tr.state == .opened)

/-- Delivery of one server broadcast to this client: each OPEN transport
receives the payload and runs its `onmessage` handler. -/
def deliverBroadcast (s : ClientState) (p : Payload) : ClientState :=
  (s.transports.filter (fun tr => tr.state == .opened)).foldl
    (fun st _ => fireMessageStep st p) s

/-- The single-pending-timer invariant: the outstanding interval timers are
exactly the content of the reconnect field — in particular there is never
more than one outstanding reconnect timer. -/
def timerInv (s : ClientState) : Prop :=
  match s.reconnectTimer with
  | some t => s.timers = [t]
  | none => s.timers = []

/-- Trace after the caller connects: one CONNECTING transport. -/
def c6State1 : ClientState := connectStep initClient

/-- Trace after the transport opens: the client is Connected. -/
def c6State2 : ClientState := fireOpenStep c6State1 0

/-- Trace after the caller invokes `disconnectAlerts`. -/
def c6State3 : ClientState := disconnectStep c6State2

/-- Trace after the torn-down transport's `close` event reaches the still
attached `onclose` handler. -/
def c6State4 : ClientState := fireCloseStep c6State3 0

/-- Trace after the freshly scheduled reconnect interval fires. -/
def c6State5 : ClientState := timerFireStep c6State4

/-! ## Base64 conversion helpers of the push subscription service (C9)

Embeds `arrayBufferToBase64` and `urlBase64ToUint8Array` of
frontend/src/services/pushSubscription.ts (lines 143-165).  Byte buffers are
lists of naturals below 256 (the values of a Uint8Array / of `charCodeAt` on
the binary string), strings are lists of characters. -/

/-- The standard base64 alphabet used by `btoa`/`atob`. -/
def b64Chars : List Char :=
  "ABCDEFGHIJKLMNOPQRSTUVWXYZabcdefghijklmnopqrstuvwxyz0123456789+/".toList

/-- Sextet value to base64 character. -/
def b64enc (n : Nat) : Char :=
  b64Chars.getD n '?'

/-- Base64 character to sextet value (inverse lookup in the alphabet). -/
def b64dec (c : Char) : Nat :=
  b64Chars.findIdx (fun x => x == c)

/-- `window.btoa` applied to the binary string built byte-by-byte with
`String.fromCharCode` (pushSubscription.ts lines 158-165 compose exactly
this): three input bytes become four alphabet characters; a final group of
one or two bytes is padded with `=`. -/
def btoaBytes : List Nat → List Char
  | [] => []
  | [b0] =>
    [b64enc (b0 / 4), b64enc (b0 % 4 * 16), '=', '=']
  | [b0, b1] =>
    [b64enc (b0 / 4), b64enc (b0 % 4 * 16 + b1 / 16), b64enc (b1 % 16 * 4), '=']
  | b0 :: b1 :: b2 :: rest =>
    b64enc (b0 / 4) :: b64enc (b0 % 4 * 16 + b1 / 16) ::
      b64enc (b1 % 16 * 4 + b2 / 64) :: b64enc (b2 % 64) :: btoaBytes rest

/-- `window.atob` followed by per-character `charCodeAt`
(pushSubscription.ts lines 146-152 compose exactly this on well-formed
base64): four characters decode to three bytes, with `=` padding marking a
final group of one or two bytes.  Input that is not well-formed base64 (where
`atob` would throw) decodes to the empty buffer; it never arises from
`btoaBytes` output. -/
def atobChars : List Char → List Nat
  | c0 :: c1 :: c2 :: c3 :: rest =>
    if c2 = '=' then
      [b64dec c0 * 4 + b64dec c1 / 16]
    else if c3 = '=' then
      [b64dec c0 * 4 + b64dec c1 / 16, b64dec c1 % 16 * 16 + b64dec c2 / 4]
    else
      (b64dec c0 * 4 + b64dec c1 / 16) ::
        (b64dec c1 % 16 * 16 + b64dec c2 / 4) ::
        (b64dec c2 % 4 * 64 + b64dec c3) :: atobChars rest
  | _ => []

/-- `arrayBufferToBase64` (pushSubscription.ts lines 158-165): builds the
binary string from the buffer's bytes and encodes it with `btoa`. -/
def arrayBufferToBase64 (buffer : List Nat) : List Char :=
  btoaBytes buffer

/-- `urlBase64ToUint8Array` (pushSubscription.ts lines 143-153): pads the
input to a multiple of four characters with `=`, maps the base64url
characters `-` and `_` to `+` and `/`, decodes with `atob` and collects the
character codes into a byte array. -/
def urlBase64ToUint8Array (s : List Char) : List Nat :=
  let padding := List.replicate ((4 - s.length % 4) % 4) '='
  let base64 := (s ++ padding).map (fun c =>
    if c = '-' then '+' else if c = '_' then '/' else c)
  atobChars base64

/-! ## Service worker push handler (C10)

Embeds the `push` event listener of frontend/public/sw.js (lines 29-82). -/

/-- The `data` object of a push notification payload, as the click handler
reads it (`event.notification.data?.url`). -/
structure NotifData where
  url : Option String
deriving DecidableEq, Repr

/-- The JSON object a push event's payload may parse to; every field the
handler reads is optional.  `requireInteraction` is an optional boolean. -/
structure SwPushData where
  title : Option String
  body : Option String
  icon : Option String
  badge : Option String
  tag : Option String
  requireInteraction : Option Bool
  data : Option NotifData
deriving DecidableEq, Repr

/-- What a push event carries: no data at all (`event.data` null), data whose
`event.data.json()` throws, or a parsed object. -/
inductive PushEventData
  | noData
  | badJson
  | parsed (d : SwPushData)
deriving DecidableEq, Repr

/-- The notification the service worker shows. -/
structure SwNotification where
  title : String
  body : String
  icon : String
  badge : String
  tag : String
  requireInteraction : Bool
  data : NotifData
deriving DecidableEq, Repr

/-- The initial `notificationData` object of the push listener (sw.js lines
32-42): the fallback notification. -/
def defaultNotification : SwNotification :=
  ⟨"HomeGuard Alert", "New security alert detected", "/favicon.ico",
    "/favicon.ico", "alert", false, ⟨some "/alerts"⟩⟩

/-- The JavaScript `a || b` fallback on an optional string field: an absent
(undefined) or empty (falsy) string yields the default. -/
def jsOrStr (o : Option String) (d : String) : String :=
  match o with
  | none => d
  | some s => if s.isEmpty then d else s

/-- The JavaScript `a || false` on an optional boolean field. -/
def jsOrFalse : Option Bool → Bool
  | none => false
  | some b => b

/-- The JavaScript `a || b` fallback on the optional `data` object (objects
are always truthy). -/
def jsOrData (o : Option NotifData) (d : NotifData) : NotifData :=
  match o with
  | none => d
  | some nd => nd

/-- The push listener's construction of the notification to show (sw.js lines
44-59): with no data or unparseable data the defaults stand; with a parsed
object every field falls back individually through `||`. -/
def buildNotification : PushEventData → SwNotification
  | .noData => defaultNotification
  | .badJson => defaultNotification
  | .parsed d =>
    ⟨jsOrStr d.title defaultNotification.title,
      jsOrStr d.body defaultNotification.body,
      jsOrStr d.icon defaultNotification.icon,
      jsOrStr d.badge defaultNotification.badge,
      jsOrStr d.tag defaultNotification.tag,
      jsOrFalse d.requireInteraction,
      jsOrData d.data defaultNotification.data⟩

/-- The push listener's effect (sw.js lines 61-81): exactly one
`showNotification` call per event, unconditionally. -/
def shownNotifications (e : PushEventData) : List SwNotification :=
  [buildNotification e]

/-! ## Theorems: Alert Source Watcher (C1) -/

/-- Membership in the seen set after one tick: the old seen set plus the
identifiers of the feed just read. -/
theorem mem_tickSeen (feed : List Alert) (seen : List String) (x : String) :
    x ∈ tickSeen feed seen ↔ x ∈ seen ∨ x ∈ feed.map (fun a => a.alertId) := by
  induction feed generalizing seen with
  | nil => simp [tickSeen]
  | cons a rest ih =>
    by_cases h : a.alertId ∈ seen
    · simp only [tickSeen, if_pos h, ih, List.map_cons, List.mem_cons]
      constructor
      · rintro (hs | hr)
        · exact Or.inl hs
        · exact Or.inr (Or.inr hr)
      · rintro (hs | heq | hr)
        · exact Or.inl hs
        · exact Or.inl (heq ▸ h)
        · exact Or.inr hr
    · simp only [tickSeen, if_neg h, ih, List.map_cons, List.mem_cons]
      tauto

/-- Emission count of one tick: an identifier is emitted exactly once if it
occurs in the feed and is not yet seen, otherwise not at all. -/
theorem countP_tickEmit (feed : List Alert) (seen : List String) (x : String) :
    (tickEmit feed seen).countP (fun a => a.alertId == x) =
      if x ∈ feed.map (fun a => a.alertId) ∧ x ∉ seen then 1 else 0 := by
  induction feed generalizing seen with
  | nil => simp [tickEmit]
  | cons a rest ih =>
    by_cases h : a.alertId ∈ seen
    · rw [tickEmit, if_pos h, ih]
      by_cases hx : x = a.alertId
      · subst hx
        simp [h]
      · simp only [List.map_cons, List.mem_cons]
        have : ¬x = a.alertId := hx
        by_cases hr : x ∈ rest.map (fun a => a.alertId) <;>
          by_cases hs : x ∈ seen <;> simp [hr, hs, this]
    · rw [tickEmit, if_neg h, List.countP_cons, ih]
      by_cases hx : x = a.alertId
      · subst hx
        simp [h]
      · simp only [List.map_cons, List.mem_cons, List.mem_cons]
        by_cases hr : x ∈ rest.map (fun a => a.alertId) <;>
          by_cases hs : x ∈ seen <;>
            simp [hr, hs, hx, Ne.symm hx, beq_iff_eq]

/-- Emission count of a whole run, generalized over the starting seen set. -/
theorem countP_watcherRun (feeds : List (List Alert)) (seen : List String)
    (x : String) :
    (watcherRun feeds seen).countP (fun a => a.alertId == x) =
      if x ∈ allIds feeds ∧ x ∉ seen then 1 else 0 := by
  induction feeds generalizing seen with
  | nil => simp [watcherRun, allIds]
  | cons feed rest ih =>
    rw [watcherRun, List.countP_append, countP_tickEmit, ih]
    simp only [allIds, List.mem_append, mem_tickSeen]
    by_cases h1 : x ∈ feed.map (fun a => a.alertId) <;>
      by_cases h2 : x ∈ seen <;>
        by_cases h3 : x ∈ allIds rest <;> simp [h1, h2, h3]

/-- C1: over any sequence of Watcher ticks within one process lifetime
(seen set starting empty), every alert identifier present in some tick's feed
is emitted as `AlertDiscovered` exactly once, and identifiers never present
are never emitted — no matter how many ticks re-read the feed. -/
theorem watcher_emits_each_id_exactly_once (feeds : List (List Alert))
    (x : String) :
    (watcherRun feeds []).countP (fun a => a.alertId == x) =
      if x ∈ allIds feeds then 1 else 0 := by
  rw [countP_watcherRun]
  simp

/-! ## Theorems: Connection Registry broadcast (C2) -/

/-- The broadcast loop counts exactly the successful sends and keeps exactly
the connections whose send succeeded. -/
theorem broadcastLoop_eq (conns : List Conn) :
    broadcastLoop conns =
      (conns.countP (fun c => c.sendOk), conns.filter (fun c => c.sendOk)) := by
  induction conns with
  | nil => rfl
  | cons c rest ih =>
    rw [broadcastLoop, ih, List.countP_cons]
    by_cases h : c.sendOk <;> simp [h, List.filter_cons]

/-- C2: `broadcast(channel, message)` attempts a send to every connection of
the channel's snapshot, returns the number of successful deliveries, removes
exactly the connections whose send failed (keeping every other connection and
every other channel intact, and — being a total function — propagating no
per-target failure to the caller); in particular, with three connections of
which connection 2's send fails, it returns 2 and connection 2 is afterwards
absent from the registry. -/
theorem broadcast_isolates_failures :
    (∀ (reg : Registry) (ch : String),
      broadcast reg ch =
        ((lookupChannel reg ch).countP (fun c => c.sendOk),
          setChannel reg ch ((lookupChannel reg ch).filter (fun c => c.sendOk)))) ∧
    broadcast [("alerts", [⟨1, true⟩, ⟨2, false⟩, ⟨3, true⟩])] "alerts" =
      (2, [("alerts", [⟨1, true⟩, ⟨3, true⟩])]) ∧
    (⟨2, false⟩ : Conn) ∉
      lookupChannel
        (broadcast [("alerts", [⟨1, true⟩, ⟨2, false⟩, ⟨3, true⟩])] "alerts").2
        "alerts" := by
  refine ⟨fun reg ch => ?_, by decide, by decide⟩
  rw [broadcast, broadcastLoop_eq]

/-! ## Theorems: Push Fanout Service (C3) -/

/-- The summary returned by `deliver` counts each outcome class. -/
theorem deliver_summary (subs : List Subscription) (store : PushStore) :
    (deliver subs store).1 =
      ⟨subs.countP (fun s => s.outcome == .delivered),
        subs.countP (fun s => s.outcome == .gone),
        subs.countP (fun s => s.outcome == .retriable)⟩ := by
  induction subs generalizing store with
  | nil => rfl
  | cons s rest ih =>
    rcases hs : s.outcome <;>
      simp [deliver, hs, ih, List.countP_cons]

/-- The store after `deliver` is the store minus exactly the endpoints whose
delivery attempt reported "gone". -/
theorem deliver_store (subs : List Subscription) (store : PushStore) :
    (deliver subs store).2 =
      store.filter (fun r => decide (r.endpoint ∉ goneEndpoints subs)) := by
  induction subs generalizing store with
  | nil => simp [deliver, goneEndpoints]
  | cons s rest ih =>
    rcases hs : s.outcome
    · rw [deliver]
      simp only [hs, ih]
      apply List.filter_congr
      intro r _
      simp [goneEndpoints, hs, List.filter_cons]
    · rw [deliver]
      simp only [hs, ih, removeEndpoint, List.filter_filter]
      apply List.filter_congr
      intro r _
      simp only [goneEndpoints, List.filter_cons, hs]
      by_cases h1 : r.endpoint = s.endpoint <;>
        by_cases h2 : r.endpoint ∈ (rest.filter
            (fun s => s.outcome == .gone)).map (fun s => s.endpoint) <;>
          simp [h1, h2, goneEndpoints]
    · rw [deliver]
      simp only [hs, ih]
      apply List.filter_congr
      intro r _
      simp [goneEndpoints, hs, List.filter_cons]

/-- C3: `deliver(alert, subscriptions)` is total (no per-subscription failure
raises), returns the {delivered, removed, failed} summary counting the three
outcome classes, and removes from the store exactly the endpoints whose
attempt carried the "subscription gone" signal; in particular, with three
subscriptions of which subscription 2 reports "gone", it returns
{delivered := 2, removed := 1, failed := 0} and subscription 2 is afterwards
absent from the store. -/
theorem deliver_isolates_failures :
    (∀ (subs : List Subscription) (store : PushStore),
      deliver subs store =
        (⟨subs.countP (fun s => s.outcome == .delivered),
            subs.countP (fun s => s.outcome == .gone),
            subs.countP (fun s => s.outcome == .retriable)⟩,
          store.filter (fun r => decide (r.endpoint ∉ goneEndpoints subs)))) ∧
    deliver
        [⟨"ep1", "admin", .delivered⟩, ⟨"ep2", "admin", .gone⟩,
          ⟨"ep3", "admin", .delivered⟩]
        [⟨"ep1", "admin", .delivered⟩, ⟨"ep2", "admin", .gone⟩,
          ⟨"ep3", "admin", .delivered⟩] =
      (⟨2, 1, 0⟩,
        [⟨"ep1", "admin", .delivered⟩, ⟨"ep3", "admin", .delivered⟩]) ∧
    (⟨"ep2", "admin", .gone⟩ : Subscription) ∉
      (deliver
        [⟨"ep1", "admin", .delivered⟩, ⟨"ep2", "admin", .gone⟩,
          ⟨"ep3", "admin", .delivered⟩]
        [⟨"ep1", "admin", .delivered⟩, ⟨"ep2", "admin", .gone⟩,
          ⟨"ep3", "admin", .delivered⟩]).2 := by
  refine ⟨fun subs store => ?_, by decide, by decide⟩
  have h1 := deliver_summary subs store
  have h2 := deliver_store subs store
  exact Prod.ext h1 h2

/-! ## Theorems: Distribution Coordinator (C4) -/

/-- C4: on every `AlertDiscovered` event the Distribution Coordinator
attempts the live broadcast on the "alerts" channel exactly once and the push
fan-out exactly once — for every registry and store, including a registry
with zero live connections or an empty subscription store, so neither side
effect's emptiness or failure suppresses the other. -/
theorem coordinator_attempts_both_exactly_once :
    (∀ (a : Alert) (reg : Registry) (store : PushStore),
      ((handleAlertDiscovered a reg store).2.countP CoordAction.isBroadcast = 1) ∧
      ((handleAlertDiscovered a reg store).2.countP CoordAction.isPush = 1) ∧
      (handleAlertDiscovered a reg store).2 =
        [.broadcastAttempt "alerts" a.alertId (broadcast reg "alerts").1,
          .pushAttempt a.alertId (listForUser store "admin").length
            (deliver (listForUser store "admin") store).1]) ∧
    (∀ (a : Alert) (store : PushStore),
      (handleAlertDiscovered a [("alerts", [])] store).2.countP
        CoordAction.isPush = 1) ∧
    (∀ (a : Alert) (reg : Registry),
      (handleAlertDiscovered a reg []).2.countP
        CoordAction.isBroadcast = 1) := by
  refine ⟨fun a reg store => ⟨?_, ?_, rfl⟩, fun a store => ?_, fun a reg => ?_⟩ <;>
    simp [handleAlertDiscovered, List.countP_cons, CoordAction.isBroadcast,
      CoordAction.isPush]

/-! ## Theorems: client channel socket state machine (C5, C6, C7) -/

/-- `connectAlerts` never touches the reconnect field or the outstanding
timers. -/
theorem connectStep_timer_fields (s : ClientState) :
    (connectStep s).reconnectTimer = s.reconnectTimer ∧
      (connectStep s).timers = s.timers := by
  unfold connectStep
  split
  · exact ⟨rfl, rfl⟩
  · cases h : s.alertSocket <;> simp [h, closeTransport]

/-- Clearing the reconnect interval leaves the field empty and preserves the
single-pending-timer invariant. -/
theorem clearReconnect_inv {s : ClientState} (hinv : timerInv s) :
    timerInv (clearReconnect s) := by
  cases h : s.reconnectTimer <;> simp_all [clearReconnect, timerInv]

/-- The reconnect field is empty after clearing it. -/
theorem clearReconnect_none (s : ClientState) :
    (clearReconnect s).reconnectTimer = none := by
  cases h : s.reconnectTimer <;> simp [clearReconnect, h]

/-- Every step of the client machine preserves the single-pending-timer
invariant. -/
theorem timerInv_preserved {s s' : ClientState} (hstep : ClientStep s s')
    (hinv : timerInv s) : timerInv s' := by
  cases hstep with
  | connect =>
    obtain ⟨h1, h2⟩ := connectStep_timer_fields s
    unfold timerInv at *
    rw [h1, h2]
    exact hinv
  | disconnect =>
    have h1 : timerInv (clearReconnect s) := clearReconnect_inv hinv
    unfold disconnectStep
    cases h : (clearReconnect s).alertSocket <;>
      simp_all [timerInv, closeTransport]
  | fireOpen t tr h hc =>
    exact clearReconnect_inv hinv
  | fireClose t tr h hc =>
    unfold fireCloseStep
    cases hr : s.reconnectTimer <;> simp_all [timerInv]
  | fireMessage t tr p h hc =>
    exact hinv
  | timerFire t h =>
    unfold timerFireStep
    split
    · exact hinv
    · obtain ⟨h1, h2⟩ := connectStep_timer_fields s
      unfold timerInv at *
      rw [h1, h2]
      exact hinv

/-- The single-pending-timer invariant holds in every reachable state. -/
theorem timerInv_reachable (s : ClientState) (h : ClientReachable s) :
    timerInv s := by
  induction h with
  | refl => simp [timerInv, initClient]
  | tail hab hbc ih => exact timerInv_preserved hbc ih

/-- C7: in every reachable state of the client socket machine there is never
more than one outstanding reconnect timer (the outstanding timers are exactly
the content of the reconnect field); the close handler schedules a timer only
when none is pending (a pending field makes the close event leave the timers
untouched); the interval's retry runs `connect` only while not already
Connected (it is a no-op on an OPEN socket); and a successful open cancels
the pending timer, leaving none outstanding. -/
theorem single_pending_reconnect_timer (s : ClientState)
    (h : ClientReachable s) :
    s.timers.length ≤ 1 ∧
    timerInv s ∧
    (∀ t t', s.reconnectTimer = some t →
      (fireCloseStep s t').timers = s.timers ∧
        (fireCloseStep s t').reconnectTimer = s.reconnectTimer) ∧
    (isFieldOpen s = true → timerFireStep s = s) ∧
    (∀ t', (fireOpenStep s t').reconnectTimer = none ∧
      (fireOpenStep s t').timers = []) := by
  have hinv := timerInv_reachable s h
  refine ⟨?_, hinv, ?_, ?_, ?_⟩
  · unfold timerInv at hinv
    cases hr : s.reconnectTimer <;> simp_all
  · intro t t' hr
    unfold fireCloseStep
    simp [hr]
  · intro hopen
    unfold timerFireStep
    rw [if_pos hopen]
  · intro t'
    have h2 : timerInv (fireOpenStep s t') := clearReconnect_inv hinv
    have h3 : (fireOpenStep s t').reconnectTimer = none := clearReconnect_none _
    refine ⟨h3, ?_⟩
    unfold timerInv at h2
    rw [h3] at h2
    exact h2

/-- Closed witness for the single-pending-timer theorem: the initial client
state is reachable and satisfies every conjunct. -/
theorem single_pending_reconnect_timer_witness :
    initClient.timers.length ≤ 1 ∧
    timerInv initClient ∧
    (∀ t t', initClient.reconnectTimer = some t →
      (fireCloseStep initClient t').timers = initClient.timers ∧
        (fireCloseStep initClient t').reconnectTimer =
          initClient.reconnectTimer) ∧
    (isFieldOpen initClient = true → timerFireStep initClient = initClient) ∧
    (∀ t', (fireOpenStep initClient t').reconnectTimer = none ∧
      (fireOpenStep initClient t').timers = []) :=
  single_pending_reconnect_timer initClient Relation.ReflTransGen.refl

/-- Folding the `onmessage` handler over a list of targets invokes the
handler once per target. -/
theorem foldl_fireMessage (l : List Transport) (s : ClientState) (p : Payload) :
    (l.foldl (fun st _ => fireMessageStep st p) s).handlerCalls =
      s.handlerCalls + l.length * alertsOnMessage p := by
  induction l generalizing s with
  | nil => simp
  | cons tr rest ih =>
    rw [List.foldl_cons, ih]
    simp only [fireMessageStep, List.length_cons]
    ring

/-- C5: client connect is idempotent while Connected: with the channel's
socket in the OPEN state, `connectAlerts` is a no-op (the existing transport
object is untouched), so two consecutive calls leave the state — in
particular the number of live transports — exactly as it was, and a single
broadcast of a well-formed new-alert payload is then delivered to the handler
callback exactly once. -/
theorem connect_idempotent_when_connected (s : ClientState)
    (h : isFieldOpen s = true) :
    connectStep s = s ∧
    connectStep (connectStep s) = s ∧
    liveTransports (connectStep (connectStep s)) = liveTransports s ∧
    (openTransports s = 1 →
      (deliverBroadcast (connectStep (connectStep s))
          (.parsed ⟨some "new_alert", none⟩)).handlerCalls =
        s.handlerCalls + 1) := by
  have h1 : connectStep s = s := by
    unfold connectStep
    rw [if_pos h]
  refine ⟨h1, by rw [h1, h1], by rw [h1, h1], ?_⟩
  intro hopen
  rw [h1, h1]
  unfold deliverBroadcast
  rw [foldl_fireMessage]
  have h2 : (s.transports.filter (fun tr => tr.state == .opened)).length = 1 := by
    rw [← List.countP_eq_length_filter]
    exact hopen
  rw [h2]
  rfl

/-- Closed witness for the idempotent-connect theorem at a concrete Connected
state holding one OPEN transport. -/
theorem connect_idempotent_when_connected_witness :
    isFieldOpen ⟨some 0, none, [], [⟨0, .opened, false⟩], 1, 0, 0⟩ = true ∧
    openTransports ⟨some 0, none, [], [⟨0, .opened, false⟩], 1, 0, 0⟩ = 1 ∧
    connectStep ⟨some 0, none, [], [⟨0, .opened, false⟩], 1, 0, 0⟩ =
      ⟨some 0, none, [], [⟨0, .opened, false⟩], 1, 0, 0⟩ ∧
    (deliverBroadcast
        (connectStep (connectStep ⟨some 0, none, [], [⟨0, .opened, false⟩], 1, 0, 0⟩))
        (.parsed ⟨some "new_alert", none⟩)).handlerCalls =
      (⟨some 0, none, [], [⟨0, .opened, false⟩], 1, 0, 0⟩ : ClientState).handlerCalls + 1 :=
  ⟨by decide, by decide,
    (connect_idempotent_when_connected _ (by decide)).1,
    (connect_idempotent_when_connected _ (by decide)).2.2.2 (by decide)⟩

/-- C6 (code behaviour at the failing trace): after `connectAlerts` opens a
transport and `disconnectAlerts` tears everything down (no pending timer, no
socket), the `close` event of the transport being torn down still reaches the
attached `onclose` handler, which — finding no pending interval — schedules a
fresh reconnect timer, and that timer's firing opens a brand-new transport
although `connect` was never called again.  This contradicts the documented
terminal `Closed` behaviour of `disconnect`. -/
theorem disconnect_close_event_reschedules_reconnect :
    isFieldOpen c6State2 = true ∧
    findTransport c6State3 0 = some ⟨0, .closed, true⟩ ∧
    c6State3.reconnectTimer = none ∧
    c6State3.alertSocket = none ∧
    liveTransports c6State3 = 0 ∧
    c6State4.reconnectTimer = some 0 ∧
    c6State4.timers = [0] ∧
    (0 ∈ c6State4.timers) ∧
    c6State5.alertSocket = some 1 ∧
    liveTransports c6State5 = 1 ∧
    c6State5.nextTransport = 2 := by
  decide

/-! ## Theorems: client message decoding (C8) -/

/-- Counterexample to C8 as stated: on the alerts channel a payload carrying
no `type` tag at all — only a `data` object with an `alert_id` — still
invokes the handler callback (wrapped as a new-alert envelope), so the
handler does not fire exactly when the type tag is "new_alert". -/
theorem alerts_handler_fires_without_type_tag :
    alertsOnMessage (.parsed ⟨none, some ⟨some "a1"⟩⟩) = 1 ∧
    (⟨none, some ⟨some "a1"⟩⟩ : WsMessage).msgType ≠ some "new_alert" := by
  decide

/-- C8 (amended): the handler is invoked at most once per payload and never
on a decode failure (which also never closes the connection or crashes the
client — the handler step leaves socket, transports and timers untouched);
on the alerts channel it is invoked exactly when the payload carries the
"new_alert" type tag or, failing that, a truthy `data.alert_id`; on the
devices channel exactly when the payload carries the "device_update" type
tag. -/
theorem onmessage_dispatch (p : Payload) (m : WsMessage) (s : ClientState) :
    alertsOnMessage p ≤ 1 ∧
    devicesOnMessage p ≤ 1 ∧
    alertsOnMessage .malformed = 0 ∧
    devicesOnMessage .malformed = 0 ∧
    (alertsOnMessage (.parsed m) = 1 ↔
      m.msgType = some "new_alert" ∨
        ∃ d, m.data = some d ∧ truthyStr d.alert_id = true) ∧
    (devicesOnMessage (.parsed m) = 1 ↔ m.msgType = some "device_update") ∧
    (fireMessageStep s p).transports = s.transports ∧
    (fireMessageStep s p).alertSocket = s.alertSocket ∧
    (fireMessageStep s p).reconnectTimer = s.reconnectTimer ∧
    (fireMessageStep s p).timers = s.timers := by
  refine ⟨?_, ?_, rfl, rfl, ?_, ?_, rfl, rfl, rfl, rfl⟩
  · rcases p with _ | ⟨mt, md⟩
    · simp [alertsOnMessage]
    · rcases md with _ | d <;>
        simp only [alertsOnMessage] <;> split <;> try split
      all_goals omega
  · rcases p with _ | ⟨mt, md⟩
    · simp [devicesOnMessage]
    · simp only [devicesOnMessage]
      split <;> omega
  · rcases m with ⟨mt, md⟩
    by_cases ht : mt == some "new_alert"
    · have ht' : mt = some "new_alert" := by
        simpa using ht
      simp [alertsOnMessage, ht, ht']
    · have ht' : ¬mt = some "new_alert" := by
        simpa using ht
      rcases md with _ | d
      · simp [alertsOnMessage, ht, ht']
      · by_cases htr : truthyStr d.alert_id <;>
          simp [alertsOnMessage, ht, ht', htr]
  · rcases m with ⟨mt, md⟩
    by_cases ht : mt == some "device_update"
    · have ht' : mt = some "device_update" := by
        simpa using ht
      simp [devicesOnMessage, ht, ht']
    · have ht' : ¬mt = some "device_update" := by
        simpa using ht
      simp [devicesOnMessage, ht, ht']

/-! ## Theorems: base64 round trip (C9) -/

/-- The base64 encoder never emits the base64url characters or a stray
default, only alphabet characters and padding; in particular never a dash,
an underscore, and — for sextet positions — never a padding sign. -/
theorem b64enc_ne (n : Nat) :
    b64enc n ≠ '-' ∧ b64enc n ≠ '_' ∧ b64enc n ≠ '=' := by
  by_cases h : n < 64
  · have hall : ∀ i : Fin 64,
        b64enc i.val ≠ '-' ∧ b64enc i.val ≠ '_' ∧ b64enc i.val ≠ '=' := by
      decide
    exact hall ⟨n, h⟩
  · have hlen : b64Chars.length = 64 := by decide
    have hd : b64enc n = '?' := by
      unfold b64enc
      exact List.getD_eq_default _ _ (by omega)
    rw [hd]
    decide

/-- Decoding inverts encoding on sextet values. -/
theorem b64dec_b64enc (n : Nat) (h : n < 64) : b64dec (b64enc n) = n := by
  have hall : ∀ i : Fin 64, b64dec (b64enc i.val) = i.val := by decide
  exact hall ⟨n, h⟩

/-- `btoa` output length is always a multiple of four. -/
theorem btoaBytes_length_mod : ∀ b : List Nat, (btoaBytes b).length % 4 = 0
  | [] => by simp [btoaBytes]
  | [_] => by simp [btoaBytes]
  | [_, _] => by simp [btoaBytes]
  | _ :: _ :: _ :: rest => by
    have ih := btoaBytes_length_mod rest
    simp only [btoaBytes, List.length_cons]
    omega

/-- Every character of `btoa` output is an alphabet character or padding —
never a dash or an underscore. -/
theorem mem_btoaBytes_ne : ∀ (b : List Nat), ∀ c ∈ btoaBytes b,
    c ≠ '-' ∧ c ≠ '_'
  | [], c, hc => by simp [btoaBytes] at hc
  | [b0], c, hc => by
    simp only [btoaBytes, List.mem_cons, List.not_mem_nil, or_false] at hc
    rcases hc with rfl | rfl | rfl | rfl
    · exact ⟨(b64enc_ne _).1, (b64enc_ne _).2.1⟩
    · exact ⟨(b64enc_ne _).1, (b64enc_ne _).2.1⟩
    · decide
    · decide
  | [b0, b1], c, hc => by
    simp only [btoaBytes, List.mem_cons, List.not_mem_nil, or_false] at hc
    rcases hc with rfl | rfl | rfl | rfl
    · exact ⟨(b64enc_ne _).1, (b64enc_ne _).2.1⟩
    · exact ⟨(b64enc_ne _).1, (b64enc_ne _).2.1⟩
    · exact ⟨(b64enc_ne _).1, (b64enc_ne _).2.1⟩
    · decide
  | b0 :: b1 :: b2 :: rest, c, hc => by
    simp only [btoaBytes, List.mem_cons] at hc
    rcases hc with rfl | rfl | rfl | rfl | hmem
    · exact ⟨(b64enc_ne _).1, (b64enc_ne _).2.1⟩
    · exact ⟨(b64enc_ne _).1, (b64enc_ne _).2.1⟩
    · exact ⟨(b64enc_ne _).1, (b64enc_ne _).2.1⟩
    · exact ⟨(b64enc_ne _).1, (b64enc_ne _).2.1⟩
    · exact mem_btoaBytes_ne rest c hmem

/-- Decoding undoes encoding on byte buffers (all entries below 256, as
Uint8Array values are). -/
theorem atobChars_btoaBytes : ∀ b : List Nat, (∀ x ∈ b, x < 256) →
    atobChars (btoaBytes b) = b
  | [], _ => rfl
  | [b0], h => by
    have hb0 : b0 < 256 := h b0 (by simp)
    simp only [btoaBytes, atobChars, if_true]
    rw [b64dec_b64enc _ (by omega : b0 / 4 < 64),
      b64dec_b64enc _ (by omega : b0 % 4 * 16 < 64)]
    congr 1
    omega
  | [b0, b1], h => by
    have hb0 : b0 < 256 := h b0 (by simp)
    have hb1 : b1 < 256 := h b1 (by simp)
    simp only [btoaBytes, atobChars]
    rw [if_neg (b64enc_ne _).2.2, if_true]
    rw [b64dec_b64enc _ (by omega : b0 / 4 < 64),
      b64dec_b64enc _ (by omega : b0 % 4 * 16 + b1 / 16 < 64),
      b64dec_b64enc _ (by omega : b1 % 16 * 4 < 64)]
    congr 1
    · omega
    · congr 1
      omega
  | b0 :: b1 :: b2 :: rest, h => by
    have hb0 : b0 < 256 := h b0 (by simp)
    have hb1 : b1 < 256 := h b1 (by simp)
    have hb2 : b2 < 256 := h b2 (by simp)
    have ih := atobChars_btoaBytes rest (fun x hx => h x (by simp [hx]))
    simp only [btoaBytes, atobChars]
    rw [if_neg (b64enc_ne _).2.2, if_neg (b64enc_ne _).2.2]
    rw [b64dec_b64enc _ (by omega : b0 / 4 < 64),
      b64dec_b64enc _ (by omega : b0 % 4 * 16 + b1 / 16 < 64),
      b64dec_b64enc _ (by omega : b1 % 16 * 4 + b2 / 64 < 64),
      b64dec_b64enc _ (by omega : b2 % 64 < 64)]
    rw [ih]
    congr 1
    · omega
    · congr 1
      · omega
      · congr 1
        omega

/-- C9: the standard-base64 encoder and the base64url-tolerant decoder of
the push subscription service are mutually inverse: for every byte buffer
`b` (entries below 256), `urlBase64ToUint8Array (arrayBufferToBase64 b)`
returns `b` — the padding computation adds nothing (encoder output length is
a multiple of four) and the dash/underscore replacement touches nothing
(encoder output contains neither), so decoding exactly undoes encoding. -/
theorem urlBase64_roundtrip (b : List Nat) (h : ∀ x ∈ b, x < 256) :
    urlBase64ToUint8Array (arrayBufferToBase64 b) = b := by
  unfold urlBase64ToUint8Array arrayBufferToBase64
  have hlen : (btoaBytes b).length % 4 = 0 := btoaBytes_length_mod b
  have hpad : (4 - (btoaBytes b).length % 4) % 4 = 0 := by omega
  rw [hpad]
  simp only [List.replicate, List.append_nil]
  have hmap : (btoaBytes b).map (fun c =>
      if c = '-' then '+' else if c = '_' then '/' else c) = btoaBytes b := by
    have := List.map_congr_left (l := btoaBytes b)
      (f := fun c => if c = '-' then '+' else if c = '_' then '/' else c)
      (g := id) (fun a ha => by
        obtain ⟨h1, h2⟩ := mem_btoaBytes_ne b a ha
        simp [h1, h2])
    simpa using this
  rw [hmap]
  exact atobChars_btoaBytes b h

/-- Closed witness for the base64 round trip at a concrete buffer exercising
all three tail shapes (length 4 = 3 + 1). -/
theorem urlBase64_roundtrip_witness :
    (∀ x ∈ [72, 0, 255, 10], x < 256) ∧
    urlBase64ToUint8Array (arrayBufferToBase64 [72, 0, 255, 10]) =
      [72, 0, 255, 10] :=
  ⟨by decide, urlBase64_roundtrip [72, 0, 255, 10] (by decide)⟩

/-! ## Theorems: service worker push handler (C10) -/

/-- C10: the push handler is total: every incoming push event yields exactly
one `showNotification` call; an event with no data or with data whose JSON
parsing fails shows the full default notification, and a parsed object
missing individual fields falls back field-by-field to the defaults — title
"HomeGuard Alert", body "New security alert detected", tag "alert", and the
deep-link data `/alerts` — instead of throwing or suppressing the
notification. -/
theorem push_handler_total_with_defaults :
    (∀ e, (shownNotifications e).length = 1) ∧
    buildNotification .noData = defaultNotification ∧
    buildNotification .badJson = defaultNotification ∧
    (∀ d : SwPushData,
      (d.title = none →
        (buildNotification (.parsed d)).title = "HomeGuard Alert") ∧
      (d.body = none →
        (buildNotification (.parsed d)).body = "New security alert detected") ∧
      (d.tag = none → (buildNotification (.parsed d)).tag = "alert") ∧
      (d.data = none →
        (buildNotification (.parsed d)).data = ⟨some "/alerts"⟩)) := by
  refine ⟨fun e => rfl, rfl, rfl, fun d => ⟨?_, ?_, ?_, ?_⟩⟩ <;>
    intro h <;>
      simp [buildNotification, jsOrStr, jsOrData, h, defaultNotification]

/-- Closed witness for the push-handler theorem at the empty parsed object:
every field falls back to its default. -/
theorem push_handler_total_with_defaults_witness :
    (buildNotification
        (.parsed ⟨none, none, none, none, none, none, none⟩)).title =
      "HomeGuard Alert" ∧
    (buildNotification
        (.parsed ⟨none, none, none, none, none, none, none⟩)).body =
      "New security alert detected" ∧
    (buildNotification
        (.parsed ⟨none, none, none, none, none, none, none⟩)).tag = "alert" ∧
    (buildNotification
        (.parsed ⟨none, none, none, none, none, none, none⟩)).data =
      ⟨some "/alerts"⟩ :=
  ⟨(push_handler_total_with_defaults.2.2.2 _).1 rfl,
    (push_handler_total_with_defaults.2.2.2 _).2.1 rfl,
    (push_handler_total_with_defaults.2.2.2 _).2.2.1 rfl,
    (push_handler_total_with_defaults.2.2.2 _).2.2.2 rfl⟩
